import Mathlib

/-!
# Verification of the ArxLibertatis-PSVita window / renderer core

Shallow embedding of the windowing and OpenGL-renderer state-caching layer
of the ArxLibertatis PSVita port, together with proofs of the specified
properties.

Embedded source files:
* `src/window/Window.cpp` (window flags, listener fan-out, close veto,
  `DisplayMode::operator<`)
* `src/window/SDL2Window.cpp` (event dispatch, resize suppression,
  display-mode enumeration sort + dedup, quit event filter)
* `src/graphics/opengl/OpenGLUtil.cpp` (`OpenGLInfo`: override parsing and
  `has(extension, version)`)
* `src/graphics/opengl/OpenGLRenderer.cpp` (`flushState` and the alpha-cutout
  test-mode selection)
* `ArxGame.cpp` (`doFrame` frame-pacing timer)
-/

namespace ArxVerify

/-! ## Window state flags (Window.cpp)

`Window::Window()` initialises `m_minimized(false), m_maximized(false)`.
The event mutators are:
* `Window::onMinimize`: `m_minimized = true, m_maximized = false;`
* `Window::onMaximize`: `m_minimized = false, m_maximized = true;`
* `Window::onRestore`:  `m_minimized = false, m_maximized = false;`
-/

/-- The minimized/maximized flag pair of `Window`. -/
structure WindowFlags where
  minimized : Bool
  maximized : Bool
  deriving DecidableEq, Repr

/-- Initial flags from the `Window::Window()` constructor. -/
def initWindowFlags : WindowFlags := { minimized := false, maximized := false }

/-- The three window-state event mutators relevant to the flags. -/
inductive WFlagEvent where
  | minimize
  | maximize
  | restore
  deriving DecidableEq, Repr

/-- Flag updates performed by `Window::onMinimize` / `onMaximize` / `onRestore`. -/
def applyWFlagEvent (s : WindowFlags) (e : WFlagEvent) : WindowFlags :=
  match e with
  | .minimize => { s with minimized := true, maximized := false }
  | .maximize => { s with minimized := false, maximized := true }
  | .restore => { s with minimized := false, maximized := false }

/-- A sequence of events applied in order, starting from a given state. -/
def applyWFlagEvents (s : WindowFlags) (es : List WFlagEvent) : WindowFlags :=
  es.foldl applyWFlagEvent s

/-- The invariant: the two flags are never both set. -/
def flagsInvariant (s : WindowFlags) : Prop := ¬(s.minimized = true ∧ s.maximized = true)

/-! ## Close veto (Window.cpp `Window::onClose`, SDL2Window.cpp `eventFilter`)

```cpp
bool Window::onClose() {
  for(Listener * listener : m_listeners) {
    bool shouldClose = listener->onCloseWindow(*this);
    if(!shouldClose) { return false; }
  }
  return true;
}
```

`SDL2Window::eventFilter` returns `onClose() ? 1 : 0` for `SDL_QUIT` events;
returning 0 drops the event, so `processEvents` never sees the `SDL_QUIT`
case that fires `onDestroy()` (the `Destroyed` notification).

Listeners are modelled by the value their `onCloseWindow` handler returns, in
registration order. Handler side effects are observed through the number of
handlers actually invoked.
-/

/-- Result of `Window::onClose` over the registered listeners' close-handler
return values. -/
def onCloseResult : List Bool → Bool
  | [] => true
  | b :: rest => if b then onCloseResult rest else false

/-- Number of close handlers invoked by `Window::onClose` (the loop stops at the
first handler that returns false). -/
def onCloseInvoked : List Bool → Nat
  | [] => 0
  | b :: rest => if b then onCloseInvoked rest + 1 else 1

/-- Model of `SDL2Window::eventFilter` for an `SDL_QUIT` event: the event survives the
filter iff `onClose()` returned true. -/
def quitEventPassesFilter (listeners : List Bool) : Bool := onCloseResult listeners

/-- Whether the `Destroyed` notification (`onDestroy()`) fires for a requested
window close: `processEvents` only fires it for `SDL_QUIT` events that survived
the filter. -/
def destroyedFires (listeners : List Bool) : Bool := quitEventPassesFilter listeners

/-! ## Frame pacing (ArxGame.cpp `ArxGame::doFrame`)

```cpp
PlatformDuration min = -targetDuration.value();
m_frameDelta = arx::clamp(m_frameDelta + targetDuration - lastDuration, min, targetDuration);
if(m_frameDelta > 0) { Thread::sleep(m_frameDelta); }
```

`PlatformDuration` is an integer number of microseconds, so durations are
modelled as `Int`. `arx::clamp(v, lo, hi)` returns `lo` if `v < lo`, `hi` if
`hi < v`, else `v`.
-/

/-- Model of `arx::clamp` on integer durations. -/
def clampDuration (v lo hi : Int) : Int := if v < lo then lo else if hi < v then hi else v

/-- One frame-pacing update of `m_frameDelta` for target duration `T` and actual
last frame duration `a`. -/
def pacingStep (T d a : Int) : Int := clampDuration (d + T - a) (-T) T

/-- The sleep duration issued after an update: the code sleeps for
`m_frameDelta` when it is positive and does not sleep otherwise. -/
def pacingSleep (d : Int) : Int := if 0 < d then d else 0

/-- The sequence of delta values after each frame's update, given the initial
delta and the actual frame durations. -/
def pacingDeltas (T d0 : Int) : List Int → List Int
  | [] => []
  | a :: rest => pacingStep T d0 a :: pacingDeltas T (pacingStep T d0 a) rest

/-! ## GraphicsCapabilities (OpenGLUtil.cpp `OpenGLInfo`)

Strings are modelled as `List Char`. The fields used by `parseOverrideConfig`
and `has` are `m_version : u32`, `m_versionOverride : u32` (seeded with
`std::numeric_limits<s32>::max()`) and
`m_extensionOverrides : std::vector<std::string>`; version encodings are
non-negative so the two integer fields are modelled as `Nat` with explicit
`% 2^32` where the source can overflow. The native extension-support query
(`epoxy_has_gl_extension` / `glewIsSupported`) is an input of the model.
-/

/-- Value of `std::numeric_limits<s32>::max()`, the "no override" sentinel. -/
def s32Max : Nat := 2147483647

/-- Modulus of `u32` arithmetic, `2^32`. -/
def u32Mod : Nat := 4294967296

/-- The separator set `" \t\r\n,;:"` of `parseOverrideConfig`. -/
def glSeparators : List Char := [' ', '\t', '\r', '\n', ',', ';', ':']

/-- Model of `util::splitIgnoreEmpty` (declared in `util/String.h`, not under `src/`):
splits on any separator character and drops empty tokens. -/
def splitIgnoreEmptyAux : List Char → List Char → List (List Char)
  | [], cur => if cur = [] then [] else [cur.reverse]
  | c :: rest, cur =>
      if c ∈ glSeparators then
        if cur = [] then splitIgnoreEmptyAux rest []
        else cur.reverse :: splitIgnoreEmptyAux rest []
      else splitIgnoreEmptyAux rest (c :: cur)

/-- Tokenisation used by `parseOverrideConfig`. -/
def splitIgnoreEmpty (cs : List Char) : List (List Char) := splitIgnoreEmptyAux cs []

/-- Model of `boost::starts_with` on character lists. -/
def startsWithTok : List Char → List Char → Bool
  | [], _ => true
  | _ :: _, [] => false
  | p :: ps, c :: cs => p == c && startsWithTok ps cs

/-- Decimal digit accumulation for `util::toInt`. -/
def parseDigitsAux : List Char → Nat → Option Nat
  | [], acc => some acc
  | c :: rest, acc =>
      if c.isDigit then parseDigitsAux rest (acc * 10 + (c.toNat - 48)) else none

/-- Model of `util::toInt<s32>` (declared in `util/Number.h`, not under `src/`):
`std::from_chars` semantics — an optional minus sign followed by one or more
decimal digits, consuming the whole string, within the `s32` range. -/
def toInt : List Char → Option Int
  | [] => none
  | '-' :: rest =>
      match rest, parseDigitsAux rest 0 with
      | [], _ => none
      | _ :: _, some n => if n ≤ 2147483648 then some (-(n : Int)) else none
      | _ :: _, none => none
  | c :: rest =>
      match parseDigitsAux (c :: rest) 0 with
      | some n => if n ≤ 2147483647 then some ((n : Int)) else none
      | none => none

/-- The `OpenGLInfo` fields consulted by override parsing and `has`. -/
structure OpenGLInfo where
  version : Nat
  versionOverride : Nat
  extensionOverrides : List (List Char)
  deriving DecidableEq, Repr

/-- The body of the `try` block of `parseOverrideConfig` for a token that is not
a `+GL_`/`-GL_` extension override: `some` of the new version override, or
`none` when the token is malformed (the body throws). -/
def versionTokenValue (version : Nat) (tok : List Char) : Option Nat :=
  let offset : Nat := if startsWithTok ['G', 'L'] tok then 2 else 0
  let dot : Option Nat :=
    match (tok.drop offset).findIdx? (· == '.') with
    | some i => some (offset + i)
    | none => none
  if tok = ['+', '*'] ∨ tok = ['+'] then
    some s32Max
  else if tok = ['-', '*'] ∨ tok = ['-'] then
    some version
  else
    match dot with
    | some d =>
        let major : Int := (toInt ((tok.drop offset).take (d - offset))).getD (-1)
        let minor : Int := (toInt (tok.drop (d + 1))).getD (-1)
        if minor < 0 ∨ 10 < minor ∨ major < 0 ∨ 429496729 < major then none
        else some ((major.toNat * 10 + minor.toNat) % u32Mod)
    | none =>
        if 1 < tok.length - offset then
          let v : Int := (toInt (tok.drop offset)).getD (-1)
          if v < 0 then none else some v.toNat
        else
          let major : Int := (toInt (tok.drop offset)).getD (-1)
          if major < 0 ∨ 429496729 < major then none else some (major.toNat * 10)

/-- One iteration of the token loop of `parseOverrideConfig`. The state is the
`OpenGLInfo` being mutated together with the local `first` flag; `version` is
`m_version`, which the parse never writes. -/
def applyOverrideToken (version : Nat) (st : OpenGLInfo × Bool) (tok : List Char) :
    OpenGLInfo × Bool :=
  if startsWithTok ('+' :: ['G', 'L', '_']) tok || startsWithTok ('-' :: ['G', 'L', '_']) tok then
    ({ st.1 with extensionOverrides := st.1.extensionOverrides ++ [tok] }, false)
  else
    match versionTokenValue version tok with
    | some vo => ({ st.1 with versionOverride := vo, extensionOverrides := [] }, false)
    | none => st

/-- The token loop of `parseOverrideConfig`. -/
def applyOverrideTokens (version : Nat) (st : OpenGLInfo × Bool) (toks : List (List Char)) :
    OpenGLInfo × Bool :=
  toks.foldl (applyOverrideToken version) st

/-- Model of `OpenGLInfo::parseOverrideConfig`: tokenises the string and runs the token
loop with a fresh `first = true` flag. -/
def parseOverrideConfig (gl : OpenGLInfo) (s : List Char) : OpenGLInfo :=
  (applyOverrideTokens gl.version (gl, true) (splitIgnoreEmpty s)).1

/-- Model of `OpenGLInfo::has(extension, version)` (the non-Vita variant at
`OpenGLUtil.cpp:180`): `native` is the compile-time-selected native
extension-support query. -/
def hasExt (gl : OpenGLInfo) (native : List Char → Bool) (ext : List Char)
    (minVersion : Nat) : Bool :=
  if gl.version < minVersion && !(native ext) then false
  else
    match gl.extensionOverrides.reverse.find? (fun o => o.drop 1 == ext) with
    | some o => o.take 1 == ['+']
    | none => minVersion ≤ gl.versionOverride

/-- The override entry consulted by `has` for a given extension: the most
recently registered matching override, as `some true` for `+ext` and
`some false` for `-ext`. -/
def overrideEntryFor (gl : OpenGLInfo) (ext : List Char) : Option Bool :=
  (gl.extensionOverrides.reverse.find? (fun o => o.drop 1 == ext)).map
    (fun o => o.take 1 == ['+'])

/-- A token is malformed when it is neither a `+GL_`/`-GL_` extension override
nor a version token the `try` block accepts (the body throws). -/
def malformedToken (version : Nat) (tok : List Char) : Bool :=
  !(startsWithTok ('+' :: ['G', 'L', '_']) tok || startsWithTok ('-' :: ['G', 'L', '_']) tok)
    && (versionTokenValue version tok).isNone

/-! ## DisplayMode ordering (Window.cpp `DisplayMode::operator<`) and the
sort + dedup of `SDL2Window::initializeFramework`

```cpp
bool DisplayMode::operator<(const DisplayMode & o) const noexcept {
  if(resolution.x != o.resolution.x) { return (resolution.x < o.resolution.x); }
  else if(resolution.y != o.resolution.y) { return (resolution.y < o.resolution.y); }
  else { return (refresh < o.refresh); }
}
```

```cpp
std::sort(m_displayModes.begin(), m_displayModes.end());
m_displayModes.erase(std::unique(m_displayModes.begin(), m_displayModes.end()),
                     m_displayModes.end());
```

`resolution` is a `Vec2i` of 32-bit signed integers and `refresh` a signed
integer; the comparisons never overflow, so the fields are modelled as `Int`.
`std::sort` (any comparison sort) is modelled by insertion sort: a sorted
permutation with respect to the comparator. `std::unique` removes the
non-leading elements of every run of adjacent `==`-equal elements. -/

/-- Structure `DisplayMode`: `x`/`y` are `resolution.x`/`resolution.y`. -/
structure DisplayMode where
  x : Int
  y : Int
  refresh : Int
  deriving DecidableEq, Repr

/-- Model of `DisplayMode::operator<`. -/
def dmLt (a b : DisplayMode) : Bool :=
  if a.x ≠ b.x then decide (a.x < b.x)
  else if a.y ≠ b.y then decide (a.y < b.y)
  else decide (a.refresh < b.refresh)

/-- The non-strict comparison induced by the comparator, as used by a
comparison sort: `a` may precede `b` iff `¬(b < a)`. -/
def dmLe (a b : DisplayMode) : Bool := !(dmLt b a)

/-- The sort key relation fed to the comparison sort. -/
def dmLeRel : DisplayMode → DisplayMode → Prop := fun a b => dmLe a b = true

/-- The strict order relation of `DisplayMode::operator<`. -/
def dmLtRel : DisplayMode → DisplayMode → Prop := fun a b => dmLt a b = true

instance : DecidableRel dmLeRel := fun a b => inferInstanceAs (Decidable (dmLe a b = true))

instance : DecidableRel dmLtRel := fun a b => inferInstanceAs (Decidable (dmLt a b = true))

instance : IsTotal DisplayMode dmLeRel :=
  ⟨fun a b => by
    unfold dmLeRel dmLe dmLt
    split_ifs <;> simp <;> omega⟩

instance : IsTrans DisplayMode dmLeRel :=
  ⟨fun a b c hab hbc => by
    unfold dmLeRel dmLe dmLt at *
    split_ifs at * <;> simp_all <;> omega⟩

instance : IsTrans DisplayMode dmLtRel :=
  ⟨fun a b c hab hbc => by
    unfold dmLtRel dmLt at *
    split_ifs at * <;> simp_all <;> omega⟩

/-- The `std::sort` call of `initializeFramework`. -/
def sortModes (l : List DisplayMode) : List DisplayMode := List.insertionSort dmLeRel l

/-- The `std::unique` + `erase` call of `initializeFramework`: drop adjacent
`==`-equal duplicates, keeping the first of each run. -/
def uniqueAdjacent : List DisplayMode → List DisplayMode
  | [] => []
  | [a] => [a]
  | a :: b :: rest =>
      if a = b then uniqueAdjacent (a :: rest) else a :: uniqueAdjacent (b :: rest)

/-- The deduplicated, sorted display-mode list exposed by
`initializeFramework`. -/
def enumerateModes (collected : List DisplayMode) : List DisplayMode :=
  uniqueAdjacent (sortModes collected)

/-! ## Resize suppression while fullscreen (SDL2Window.cpp `processEvents`)

```cpp
case SDL_WINDOWEVENT_SIZE_CHANGED: {
  Vec2i newSize(event.window.data1, event.window.data2);
  if(newSize != m_mode.resolution && !m_fullscreen) {
    m_renderer->beforeResize(false);
    updateSize();
  } else {
    // SDL regrettably sends resize events when a fullscreen window
    // is minimized - we'll have none of that!
  }
  break;
}
```

`SDL2Window::updateSize(bool force = false)` queries the authoritative window
size (`SDL_GetWindowSize`) and current display refresh rate, overwrites
`m_mode`, and fires `onResize` (the `Resize` notification) iff
`force || m_mode != oldMode`. The queried size/refresh are inputs of the model.
The cached mode reuses `DisplayMode` (`x`/`y` = `resolution.x`/`resolution.y`).
-/

/-- The `SDL2Window` state consulted by the size-changed dispatch. -/
structure SDLWindowState where
  mode : DisplayMode
  fullscreen : Bool
  deriving DecidableEq, Repr

/-- Model of `SDL2Window::updateSize`: refresh the cached mode from the authoritative
queries; returns the new state and whether `onResize` fired. `actualRefresh` is
`some r` when `SDL_GetCurrentDisplayMode` succeeds and `none` otherwise (the
source then stores refresh 0). -/
def updateSize (w : SDLWindowState) (actualW actualH : Int) (actualRefresh : Option Int)
    (force : Bool) : SDLWindowState × Bool :=
  let newMode : DisplayMode := ⟨actualW, actualH, actualRefresh.getD 0⟩
  ({ w with mode := newMode }, force || newMode ≠ w.mode)

/-- The `SDL_WINDOWEVENT_SIZE_CHANGED` dispatch of `processEvents`: returns the
new state and whether the `Resize` notification fired. -/
def processSizeChanged (w : SDLWindowState) (eventW eventH : Int)
    (actualW actualH : Int) (actualRefresh : Option Int) : SDLWindowState × Bool :=
  if (eventW, eventH) ≠ (w.mode.x, w.mode.y) && !w.fullscreen then
    updateSize w actualW actualH actualRefresh false
  else
    (w, false)

/-! ## Renderer state cache and flush (OpenGLRenderer.cpp `flushState`)

`RendererState` fields (desired `m_state` vs applied `m_glstate`): cull, fog,
depth test, depth write, depth offset, blend factor pair, alpha cutout.
The derived GL-side caches are `m_glsampleShading`, `m_glalphaToCoverage`,
`m_glalphaFunc` and `m_glblendSrc`/`m_glblendDst`. `m_glalphaFunc` is a float
that only ever holds the three sentinels `-1.f` (GL_ALWAYS), `0.f`
(GL_GREATER, 0) and `0.5f` (GL_GREATER, 0.5) compared exactly, so it is
modelled as a three-valued inductive. `m_glblendSrc`/`m_glblendDst` hold GL
enums produced by the injective `arxToGlBlendFactor` table, so they are
modelled as `BlendingFactor` values. `config.video.alphaCutoutAntialiasing` is
an int clamped to [0, 2]; the `AlphaCutoutAntialising` enum constants (declared
in `Renderer.h`, not under `src/`) are `FuzzyAlphaCutoutAA = 1` and
`CrispAlphaCutoutAA = 2` (the config default is 2 and
`getMaxSupportedAlphaCutoutAntialiasing` returns Crisp above Fuzzy).
-/

/-- The `BlendingFactor` enum, in the order of `arxToGlBlendFactor`. -/
inductive BlendingFactor where
  | BlendZero
  | BlendOne
  | BlendSrcColor
  | BlendSrcAlpha
  | BlendInvSrcColor
  | BlendInvSrcAlpha
  | BlendSrcAlphaSaturate
  | BlendDstColor
  | BlendDstAlpha
  | BlendInvDstColor
  | BlendInvDstAlpha
  deriving DecidableEq, Repr, Fintype

/-- The local `TestMode` enum of `flushState`. -/
inductive TestMode where
  | TestSS
  | TestA2C
  | TestStrict
  | TestConservative
  | TestNone
  deriving DecidableEq, Repr, Fintype

/-- The three sentinel values ever held by `m_glalphaFunc`. -/
inductive AlphaFuncState where
  | always
  | greaterZero
  | greaterHalf
  deriving DecidableEq, Repr

/-- The pipeline state tracked by `RenderState` (desired and applied copies). -/
structure RenderState where
  cull : Bool
  fog : Bool
  depthTest : Bool
  depthWrite : Bool
  depthOffset : Nat
  blendSrc : BlendingFactor
  blendDst : BlendingFactor
  alphaCutout : Bool
  deriving DecidableEq, Repr

/-- The GL-side derived-value caches of `OpenGLRenderer`. -/
structure GLCaches where
  sampleShading : Bool
  a2c : Bool
  alphaFunc : AlphaFuncState
  blendSrc : BlendingFactor
  blendDst : BlendingFactor
  deriving DecidableEq, Repr

/-- The renderer state consulted by `flushState`. -/
structure GLRendererState where
  state : RenderState
  glstate : RenderState
  caches : GLCaches
  hasMSAA : Bool
  hasSampleShading : Bool
  alphaCutoutAntialiasing : Nat
  deriving DecidableEq, Repr

/-- The state-changing GL calls emitted by `flushState`. -/
inductive GLCall where
  | enableCullFace
  | disableCullFace
  | enableFog
  | disableFog
  | enableSampleShading
  | disableSampleShading
  | enableAlphaToCoverage
  | disableAlphaToCoverage
  | alphaFuncAlways
  | alphaFuncGreaterZero
  | alphaFuncGreaterHalf
  | blendFunc (src dst : BlendingFactor)
  | depthFunc (lequal : Bool)
  | depthMask (write : Bool)
  | polygonOffset (offset : Int)
  deriving DecidableEq, Repr

/-- The test-mode selection of `flushState` (OpenGLRenderer.cpp:954-987):
returns the chosen `TestMode` and the (possibly remapped) blend source
factor. -/
def selectTestMode (hasMSAA hasSampleShading : Bool) (alphaCutoutAntialiasing : Nat)
    (blendSrc blendDst : BlendingFactor) (alphaCutout : Bool) :
    TestMode × BlendingFactor :=
  let useSS := hasMSAA && hasSampleShading && (alphaCutoutAntialiasing == 2)
  let useA2C := hasMSAA && (alphaCutoutAntialiasing == 1)
  if alphaCutout then
    if blendSrc == .BlendOne && blendDst == .BlendZero then
      (if useSS then .TestSS else if useA2C then .TestA2C else .TestStrict, blendSrc)
    else if blendSrc == .BlendOne && blendDst == .BlendOne then
      (.TestConservative, .BlendSrcAlpha)
    else if blendSrc == .BlendSrcAlpha || blendDst == .BlendInvSrcAlpha then
      (.TestConservative, blendSrc)
    else
      (if useSS then .TestSS else .TestStrict, blendSrc)
  else
    (.TestNone, blendSrc)

/-- Modelled from the spec: the discard-test selection rule as C2 states it —
conservative (skip discard) when the blend pair already incorporates source
alpha; otherwise sample shading if the capability is available and MSAA is
active and configured for it, else alpha-to-coverage if MSAA is active and
configured for it, else plain alpha-threshold discard. -/
def claimTestMode (hasMSAA hasSampleShading : Bool) (alphaCutoutAntialiasing : Nat)
    (blendSrc blendDst : BlendingFactor) : TestMode :=
  if blendSrc == .BlendSrcAlpha || blendDst == .BlendInvSrcAlpha then
    .TestConservative
  else if hasSampleShading && hasMSAA && (alphaCutoutAntialiasing == 2) then
    .TestSS
  else if hasMSAA && (alphaCutoutAntialiasing == 1) then
    .TestA2C
  else
    .TestStrict

/-- The code's selection rule, stated per the amended claim. -/
def amendedTestMode (hasMSAA hasSampleShading : Bool) (alphaCutoutAntialiasing : Nat)
    (blendSrc blendDst : BlendingFactor) : TestMode :=
  if blendSrc == .BlendOne && blendDst == .BlendOne then
    .TestConservative
  else if blendSrc == .BlendSrcAlpha || blendDst == .BlendInvSrcAlpha then
    .TestConservative
  else if blendSrc == .BlendOne && blendDst == .BlendZero then
    if hasMSAA && hasSampleShading && (alphaCutoutAntialiasing == 2) then .TestSS
    else if hasMSAA && (alphaCutoutAntialiasing == 1) then .TestA2C
    else .TestStrict
  else
    if hasMSAA && hasSampleShading && (alphaCutoutAntialiasing == 2) then .TestSS
    else .TestStrict

/-- Emission of the blend/alpha-cutout branch of `flushState`
(OpenGLRenderer.cpp:950-1036): each derived value (sample-shading enable,
alpha-to-coverage enable, alpha-test function, GL blend factor pair) is
change-detected against its cache and re-issued only when it changed. -/
def blendBranch (r : GLRendererState) : GLCaches × List GLCall :=
  let tm := selectTestMode r.hasMSAA r.hasSampleShading r.alphaCutoutAntialiasing
    r.state.blendSrc r.state.blendDst r.state.alphaCutout
  let alphaTest := tm.1
  let blendSrc := tm.2
  let c := r.caches
  let ssPair : Bool × List GLCall :=
    if c.sampleShading && !(alphaTest == .TestSS) then (false, [.disableSampleShading])
    else if !c.sampleShading && (alphaTest == .TestSS) then (true, [.enableSampleShading])
    else (c.sampleShading, [])
  let a2cPair : Bool × List GLCall :=
    if c.a2c && !(alphaTest == .TestA2C) then (false, [.disableAlphaToCoverage])
    else if !c.a2c && (alphaTest == .TestA2C) then (true, [.enableAlphaToCoverage])
    else (c.a2c, [])
  let afPair : AlphaFuncState × List GLCall :=
    if alphaTest == .TestNone then
      if !(c.alphaFunc == .always) then (.always, [.alphaFuncAlways]) else (c.alphaFunc, [])
    else if alphaTest == .TestConservative || alphaTest == .TestA2C then
      if !(c.alphaFunc == .greaterZero) then (.greaterZero, [.alphaFuncGreaterZero])
      else (c.alphaFunc, [])
    else
      if !(c.alphaFunc == .greaterHalf) then (.greaterHalf, [.alphaFuncGreaterHalf])
      else (c.alphaFunc, [])
  let bfPair : (BlendingFactor × BlendingFactor) × List GLCall :=
    if !(c.blendSrc == blendSrc) || !(c.blendDst == r.state.blendDst) then
      ((blendSrc, r.state.blendDst), [.blendFunc blendSrc r.state.blendDst])
    else ((c.blendSrc, c.blendDst), [])
  (⟨ssPair.1, a2cPair.1, afPair.1, bfPair.1.1, bfPair.1.2⟩,
   ssPair.2 ++ a2cPair.2 ++ afPair.2 ++ bfPair.2)

/-- Model of `OpenGLRenderer::flushState` (the pipeline-state diff pass): returns the
renderer state after the flush and the state-changing GL calls it issued. The
unconditional per-texture-stage `apply()` loop at the end of the source
function is not a diff-derived pipeline-state call and is outside this model. -/
def flushState (r : GLRendererState) : GLRendererState × List GLCall :=
  if r.glstate = r.state then
    (r, [])
  else
    let cullCalls : List GLCall :=
      if r.glstate.cull ≠ r.state.cull then
        [if r.state.cull then .enableCullFace else .disableCullFace]
      else []
    let fogCalls : List GLCall :=
      if r.glstate.fog ≠ r.state.fog then
        [if r.state.fog then .enableFog else .disableFog]
      else []
    let bb : GLCaches × List GLCall :=
      if r.glstate.blendSrc ≠ r.state.blendSrc ∨ r.glstate.blendDst ≠ r.state.blendDst
          ∨ r.glstate.alphaCutout ≠ r.state.alphaCutout then
        blendBranch r
      else (r.caches, [])
    let depthTestCalls : List GLCall :=
      if r.glstate.depthTest ≠ r.state.depthTest then [.depthFunc r.state.depthTest] else []
    let depthWriteCalls : List GLCall :=
      if r.glstate.depthWrite ≠ r.state.depthWrite then [.depthMask r.state.depthWrite] else []
    let depthOffsetCalls : List GLCall :=
      if r.glstate.depthOffset ≠ r.state.depthOffset then
        [.polygonOffset (-(r.state.depthOffset : Int))]
      else []
    ({ r with glstate := r.state, caches := bb.1 },
     cullCalls ++ fogCalls ++ bb.2 ++ depthTestCalls ++ depthWriteCalls ++ depthOffsetCalls)

/-- A concrete renderer state whose desired and applied states differ
(reinit-time applied state vs an alpha-cutout additive-blend desired state). -/
def flushWitnessState : GLRendererState :=
  { state := { cull := true, fog := true, depthTest := true, depthWrite := false,
               depthOffset := 2, blendSrc := .BlendOne, blendDst := .BlendOne,
               alphaCutout := true }
    glstate := { cull := false, fog := false, depthTest := false, depthWrite := true,
                 depthOffset := 0, blendSrc := .BlendZero, blendDst := .BlendOne,
                 alphaCutout := false }
    caches := { sampleShading := false, a2c := false, alphaFunc := .always,
                blendSrc := .BlendOne, blendDst := .BlendZero }
    hasMSAA := true
    hasSampleShading := true
    alphaCutoutAntialiasing := 2 }

/-- A concrete renderer state whose desired and applied states are equal. -/
def flushWitnessNoopState : GLRendererState :=
  { flushWitnessState with glstate := flushWitnessState.state }

/-! ## Theorems -/

theorem applyWFlagEvent_invariant (s : WindowFlags) (e : WFlagEvent) :
    flagsInvariant (applyWFlagEvent s e) := by
  cases e <;> simp [applyWFlagEvent, flagsInvariant]

theorem applyWFlagEvents_invariant (es : List WFlagEvent) (s : WindowFlags)
    (h : flagsInvariant s) : flagsInvariant (applyWFlagEvents s es) := by
  induction es generalizing s with
  | nil => exact h
  | cons e es ih => exact ih (applyWFlagEvent s e) (applyWFlagEvent_invariant s e)

/-- C10: the window's minimized and maximized flags are never both true: both start
false in `Window::Window()`, and after any sequence of the event mutators
`onMinimize`, `onMaximize` and `onRestore` at most one of the two flags is set. -/
theorem window_flags_never_both_set (es : List WFlagEvent) :
    flagsInvariant initWindowFlags ∧ flagsInvariant (applyWFlagEvents initWindowFlags es) :=
  ⟨by simp [initWindowFlags, flagsInvariant],
   applyWFlagEvents_invariant es initWindowFlags (by simp [initWindowFlags, flagsInvariant])⟩

/-- C5: when a window close is requested every listener's close handler is
consulted in registration order; the first listener returning false stops the
loop, so exactly `min (takeWhile true + 1) length` handlers run; the `Destroyed`
notification fires iff every listener returned true (any veto aborts the close
and the window persists). -/
theorem close_veto_short_circuit (listeners : List Bool) :
    destroyedFires listeners = listeners.all id ∧
    onCloseInvoked listeners = min ((listeners.takeWhile id).length + 1) listeners.length := by
  constructor
  · induction listeners with
    | nil => rfl
    | cons b rest ih =>
        cases b <;>
          simp_all [destroyedFires, quitEventPassesFilter, onCloseResult]
  · induction listeners with
    | nil => rfl
    | cons b rest ih =>
        cases b with
        | false => simp [onCloseInvoked, List.takeWhile]
        | true =>
            simp only [onCloseInvoked, List.takeWhile, id, if_true, List.length_cons]
            omega

theorem pacingStep_bounds (T d a : Int) (hT : 0 ≤ T) :
    -T ≤ pacingStep T d a ∧ pacingStep T d a ≤ T := by
  unfold pacingStep clampDuration
  split <;> [omega; (split <;> omega)]

/-- C6: with a frame-rate cap at fixed target duration `T`, for every sequence
of actual frame durations each updated delta equals
`clamp(delta + T - actual, -T, T)` and hence stays within `[-T, T]`, and the
sleep issued per frame is `max 0 (delta after update)`. -/
theorem frame_pacing_delta_clamped (T d0 : Int) (durations : List Int) (hT : 0 ≤ T) :
    (∀ d ∈ pacingDeltas T d0 durations, -T ≤ d ∧ d ≤ T) ∧
    (∀ d : Int, pacingSleep d = max 0 d) := by
  constructor
  · induction durations generalizing d0 with
    | nil => intro d hd; simp [pacingDeltas] at hd
    | cons a rest ih =>
        intro d hd
        rw [pacingDeltas] at hd
        rcases List.mem_cons.mp hd with h | h
        · subst h; exact pacingStep_bounds T d0 a hT
        · exact ih (pacingStep T d0 a) d h
  · intro d
    unfold pacingSleep
    split <;> omega

/-- Witness for C6 at `T` = 16667 µs (60 fps), initial delta 0 and a concrete
duration sequence. -/
theorem frame_pacing_delta_clamped_witness :
    (∀ d ∈ pacingDeltas 16667 0 [20000, 10000, 3, 50000], -16667 ≤ d ∧ d ≤ 16667) ∧
    (∀ d : Int, pacingSleep d = max 0 d) :=
  frame_pacing_delta_clamped 16667 0 [20000, 10000, 3, 50000] (by decide)

/-- Counterexample to C1: with native version 20, an override list containing
`+GL_FOO` (the most recent entry for that extension) and a native extension
query that fails, `has("GL_FOO", 30)` returns `false` — the initial
version/extension detection gate at the top of `has` returns early before the
override list is ever scanned, so a `+ext` override does not win "regardless of
native version and native extension detection". -/
theorem has_plus_override_not_unconditional :
    overrideEntryFor ⟨20, s32Max, [('+' :: "GL_FOO".data)]⟩ "GL_FOO".data = some true ∧
    hasExt ⟨20, s32Max, [('+' :: "GL_FOO".data)]⟩ (fun _ => false) "GL_FOO".data 30 = false :=
  ⟨rfl, rfl⟩

/-- C1 (amended): if the most recently registered override entry for `ext` is
`-ext` then `has(ext, v)` is false regardless of native version and native
detection; if it is `+ext` then `has(ext, v)` is true exactly when the initial
detection gate passes, i.e. when native version ≥ v or the native extension
query succeeds. -/
theorem has_override_behaviour (gl : OpenGLInfo) (native : List Char → Bool)
    (ext : List Char) (v : Nat) :
    (overrideEntryFor gl ext = some false → hasExt gl native ext v = false) ∧
    (overrideEntryFor gl ext = some true →
      hasExt gl native ext v = (decide (v ≤ gl.version) || native ext)) := by
  unfold hasExt overrideEntryFor
  cases hf : gl.extensionOverrides.reverse.find? (fun o => o.drop 1 == ext) with
  | none => simp
  | some o =>
      simp only [Option.map_some', Option.some.injEq]
      constructor
      · intro hneg
        rw [hneg]
        split <;> simp
      · intro hpos
        rw [hpos]
        split
        · next hgate =>
            simp only [Bool.and_eq_true, Bool.not_eq_true', decide_eq_true_eq] at hgate
            have : ¬ v ≤ gl.version := by omega
            simp [this, hgate.2]
        · next hgate =>
            simp only [Bool.and_eq_true, Bool.not_eq_true', decide_eq_true_eq, not_and] at hgate
            rcases Nat.lt_or_ge gl.version v with hlt | hge
            · simp [hgate hlt]
            · simp [Nat.le_of_lt_succ, show v ≤ gl.version from hge]

/-- Witness for C1 (amended) at concrete inputs: a `-GL_FOO` override forces
`false` even though detection succeeds, and a `+GL_FOO` override with a failing
native query yields exactly the gate value. -/
theorem has_override_behaviour_witness :
    hasExt ⟨20, s32Max, [('-' :: "GL_FOO".data)]⟩ (fun _ => true) "GL_FOO".data 10 = false ∧
    hasExt ⟨20, s32Max, [('+' :: "GL_FOO".data)]⟩ (fun _ => false) "GL_FOO".data 10 =
      (decide ((10 : Nat) ≤ 20) || false) :=
  ⟨(has_override_behaviour ⟨20, s32Max, [('-' :: "GL_FOO".data)]⟩ (fun _ => true)
      "GL_FOO".data 10).1 rfl,
   (has_override_behaviour ⟨20, s32Max, [('+' :: "GL_FOO".data)]⟩ (fun _ => false)
      "GL_FOO".data 10).2 rfl⟩

/-- C3: a version token clears all previously accumulated extension overrides —
including entries already present in `m_extensionOverrides` before the parse —
while `+EXT`/`-EXT` tokens only append. Parsing `"+GL_FOO -GL_BAR 4.2"` from any
initial state leaves version override 42 and no extension overrides, and
parsing `"+GL_FOO 4.2 -GL_BAR"` leaves version override 42 and only `-GL_BAR`. -/
theorem version_token_clears_extension_overrides (gl : OpenGLInfo) :
    (parseOverrideConfig gl "+GL_FOO -GL_BAR 4.2".data).versionOverride = 42 ∧
    (parseOverrideConfig gl "+GL_FOO -GL_BAR 4.2".data).extensionOverrides = [] ∧
    (parseOverrideConfig gl "+GL_FOO 4.2 -GL_BAR".data).versionOverride = 42 ∧
    (parseOverrideConfig gl "+GL_FOO 4.2 -GL_BAR".data).extensionOverrides =
      ["-GL_BAR".data] ∧
    (∀ (version : Nat) (st : OpenGLInfo × Bool) (tok : List Char),
      (startsWithTok ('+' :: ['G', 'L', '_']) tok
          || startsWithTok ('-' :: ['G', 'L', '_']) tok) = true →
      applyOverrideToken version st tok =
        ({ st.1 with extensionOverrides := st.1.extensionOverrides ++ [tok] }, false)) := by
  refine ⟨rfl, rfl, rfl, rfl, ?_⟩
  intro version st tok h
  unfold applyOverrideToken
  rw [h]
  simp

/-- Witness for C3 at a concrete initial state (with a leftover override from an
earlier parse) and a concrete extension token. -/
theorem version_token_clears_extension_overrides_witness :
    (parseOverrideConfig ⟨21, 15, ["-GL_OLD".data]⟩ "+GL_FOO 4.2 -GL_BAR".data).versionOverride
        = 42 ∧
    applyOverrideToken 21 (⟨21, 15, []⟩, true) "-GL_X".data =
      (⟨21, 15, ["-GL_X".data]⟩, false) :=
  ⟨(version_token_clears_extension_overrides ⟨21, 15, ["-GL_OLD".data]⟩).2.2.1,
   (version_token_clears_extension_overrides ⟨21, 15, ["-GL_OLD".data]⟩).2.2.2.2
      21 (⟨21, 15, []⟩, true) "-GL_X".data rfl⟩

theorem applyOverrideToken_malformed (version : Nat) (st : OpenGLInfo × Bool)
    (tok : List Char) (h : malformedToken version tok = true) :
    applyOverrideToken version st tok = st := by
  unfold malformedToken at h
  simp only [Bool.and_eq_true, Bool.not_eq_true', Option.isNone_iff_eq_none] at h
  unfold applyOverrideToken
  rw [h.1, h.2]
  simp

/-- C9: a malformed token is skipped (only logged): it changes neither the
version override nor the extension-override list, and the parse of the
remaining tokens continues — the fold over a token stream containing the
malformed token equals the fold with it removed, so all well-formed tokens
after it are still applied. -/
theorem malformed_token_skipped (version : Nat) (st : OpenGLInfo × Bool)
    (toks1 toks2 : List (List Char)) (bad : List Char)
    (h : malformedToken version bad = true) :
    applyOverrideToken version st bad = st ∧
    applyOverrideTokens version st (toks1 ++ bad :: toks2) =
      applyOverrideTokens version st (toks1 ++ toks2) := by
  refine ⟨applyOverrideToken_malformed version st bad h, ?_⟩
  unfold applyOverrideTokens
  rw [List.foldl_append, List.foldl_append, List.foldl_cons,
    applyOverrideToken_malformed version _ bad h]

/-- Witness for C9: the malformed token `GARBAGE` between two well-formed tokens
is skipped and the rest of the parse still applies. -/
theorem malformed_token_skipped_witness :
    applyOverrideToken 21 (⟨21, s32Max, []⟩, true) "GARBAGE".data = (⟨21, s32Max, []⟩, true) ∧
    applyOverrideTokens 21 (⟨21, s32Max, []⟩, true)
        ["+GL_A".data, "GARBAGE".data, "3.1".data] =
      applyOverrideTokens 21 (⟨21, s32Max, []⟩, true) ["+GL_A".data, "3.1".data] :=
  malformed_token_skipped 21 (⟨21, s32Max, []⟩, true) ["+GL_A".data] ["3.1".data]
    "GARBAGE".data rfl

theorem dmLt_iff (a b : DisplayMode) :
    dmLt a b = true ↔
      a.x < b.x ∨ (a.x = b.x ∧ (a.y < b.y ∨ (a.y = b.y ∧ a.refresh < b.refresh))) := by
  unfold dmLt
  split_ifs with h1 h2 <;> simp only [decide_eq_true_eq] <;> omega

theorem dmLe_iff (a b : DisplayMode) : dmLe a b = true ↔ ¬(dmLt b a = true) := by
  unfold dmLe
  cases h : dmLt b a <;> simp [h]

theorem uniqueAdjacent_head? :
    ∀ (a : DisplayMode) (l : List DisplayMode), (uniqueAdjacent (a :: l)).head? = some a := by
  intro a l
  induction l generalizing a with
  | nil => simp [uniqueAdjacent]
  | cons b rest ih =>
      simp only [uniqueAdjacent]
      split
      · next h => rw [ih a]
      · rfl

theorem uniqueAdjacent_chain :
    ∀ l : List DisplayMode, l.Pairwise dmLeRel → List.Chain' dmLtRel (uniqueAdjacent l) := by
  intro l
  induction l using uniqueAdjacent.induct with
  | case1 => intro _; simp [uniqueAdjacent]
  | case2 a => intro _; simp [uniqueAdjacent]
  | case3 b rest ih =>
      intro h
      simp only [uniqueAdjacent, if_pos rfl]
      rcases h with _ | ⟨ha, hrest⟩
      exact ih hrest
  | case4 a b rest hne ih =>
      intro h
      simp only [uniqueAdjacent, if_neg hne]
      rcases h with _ | ⟨ha, hrest⟩
      rw [List.chain'_cons']
      refine ⟨?_, ih hrest⟩
      intro z hz
      rw [uniqueAdjacent_head?] at hz
      cases hz
      have hle : dmLeRel a b := ha b (List.mem_cons_self b rest)
      unfold dmLeRel at hle
      unfold dmLtRel
      rw [dmLe_iff, dmLt_iff] at hle
      rw [dmLt_iff]
      have : ¬(a.x = b.x ∧ a.y = b.y ∧ a.refresh = b.refresh) := by
        intro hcomp
        exact hne (by cases a; cases b; simp_all)
      omega

/-- C7: `DisplayMode::operator<` is a strict total order — irreflexive,
transitive and total on distinct values — and the sorted, adjacent-deduplicated
display-mode list of `initializeFramework` is strictly increasing with no
duplicate (resolution, refresh) entries, whatever duplicates were collected
across displays. -/
theorem displayMode_strict_total_order_sort_dedup :
    (∀ a : DisplayMode, dmLt a a = false) ∧
    (∀ a b c : DisplayMode, dmLt a b = true → dmLt b c = true → dmLt a c = true) ∧
    (∀ a b : DisplayMode, a ≠ b → dmLt a b = true ∨ dmLt b a = true) ∧
    (∀ collected : List DisplayMode,
      (enumerateModes collected).Pairwise dmLtRel ∧ (enumerateModes collected).Nodup) := by
  refine ⟨?_, ?_, ?_, ?_⟩
  · intro a
    cases h : dmLt a a
    · rfl
    · exfalso
      have := (dmLt_iff a a).mp h
      omega
  · intro a b c hab hbc
    rw [dmLt_iff] at *
    omega
  · intro a b hne
    have : ¬(a.x = b.x ∧ a.y = b.y ∧ a.refresh = b.refresh) := by
      intro hcomp
      exact hne (by cases a; cases b; simp_all)
    rw [dmLt_iff, dmLt_iff]
    omega
  · intro collected
    have hsorted : (sortModes collected).Pairwise dmLeRel :=
      List.sorted_insertionSort dmLeRel collected
    have hchain : List.Chain' dmLtRel (enumerateModes collected) :=
      uniqueAdjacent_chain (sortModes collected) hsorted
    have hpw : (enumerateModes collected).Pairwise dmLtRel :=
      List.chain'_iff_pairwise.mp hchain
    refine ⟨hpw, List.Pairwise.imp ?_ hpw⟩
    intro a b hlt
    unfold dmLtRel at hlt
    rw [dmLt_iff] at hlt
    intro hab
    subst hab
    omega

/-- Witness for C7: transitivity and totality applied at concrete modes, and
the sort + dedup pipeline on a concrete duplicate-carrying list. -/
theorem displayMode_strict_total_order_sort_dedup_witness :
    dmLt ⟨640, 480, 60⟩ ⟨800, 600, 60⟩ = true ∧
    (dmLt ⟨640, 480, 60⟩ ⟨640, 480, 75⟩ = true ∨ dmLt ⟨640, 480, 75⟩ ⟨640, 480, 60⟩ = true) ∧
    (enumerateModes [⟨800, 600, 60⟩, ⟨640, 480, 60⟩, ⟨640, 480, 60⟩,
        ⟨800, 600, 60⟩]).Pairwise dmLtRel :=
  ⟨displayMode_strict_total_order_sort_dedup.2.1 ⟨640, 480, 60⟩ ⟨640, 480, 75⟩
      ⟨800, 600, 60⟩ (by decide) (by decide),
   displayMode_strict_total_order_sort_dedup.2.2.1 ⟨640, 480, 60⟩ ⟨640, 480, 75⟩
      (by decide),
   (displayMode_strict_total_order_sort_dedup.2.2.2
      [⟨800, 600, 60⟩, ⟨640, 480, 60⟩, ⟨640, 480, 60⟩, ⟨800, 600, 60⟩]).1⟩

/-- C8: a platform resize event delivered while the fullscreen flag is true —
even with a new size differing from the cached size — fires no `Resize`
notification and leaves the cached mode unchanged, while an explicit
`updateSize()` call does update the cached mode from the authoritative size
query in that state. -/
theorem fullscreen_resize_suppressed (w : SDLWindowState) (eventW eventH : Int)
    (actualW actualH : Int) (actualRefresh : Option Int)
    (hfs : w.fullscreen = true) :
    processSizeChanged w eventW eventH actualW actualH actualRefresh = (w, false) ∧
    (∀ force : Bool,
      (updateSize w actualW actualH actualRefresh force).1.mode =
        ⟨actualW, actualH, actualRefresh.getD 0⟩) := by
  constructor
  · unfold processSizeChanged
    rw [hfs]
    simp
  · intro force
    rfl

/-- Witness for C8: a fullscreen window at cached 1280x720 at 60 Hz receiving a
spurious 640×480 resize event keeps its cached mode and fires nothing; an
explicit `updateSize` refreshes the cache. -/
theorem fullscreen_resize_suppressed_witness :
    processSizeChanged ⟨⟨1280, 720, 60⟩, true⟩ 640 480 1280 720 (some 60) =
      (⟨⟨1280, 720, 60⟩, true⟩, false) ∧
    (∀ force : Bool,
      (updateSize ⟨⟨1280, 720, 60⟩, true⟩ 1280 720 (some 60) force).1.mode =
        ⟨1280, 720, 60⟩) :=
  fullscreen_resize_suppressed ⟨⟨1280, 720, 60⟩, true⟩ 640 480 1280 720 (some 60) rfl

/-- Counterexample to C2: with alpha cutout enabled, blend pair
(SrcColor, Zero) — which does not incorporate source alpha — MSAA active and
alpha-to-coverage configured (`alphaCutoutAntialiasing = FuzzyAlphaCutoutAA`),
the claim selects alpha-to-coverage but the code selects plain
alpha-threshold discard: alpha-to-coverage is only ever chosen for the opaque
pair (One, Zero). -/
theorem test_mode_selection_counterexample :
    (selectTestMode true false 1 .BlendSrcColor .BlendZero true).1 = .TestStrict ∧
    claimTestMode true false 1 .BlendSrcColor .BlendZero = .TestA2C := by
  exact ⟨rfl, rfl⟩

/-- C2 (amended): with alpha cutout enabled the code selects conservative for
the additive pair (One, One) (remapping the source factor to SrcAlpha) and for
pairs incorporating source alpha (src = SrcAlpha or dst = InvSrcAlpha); for the
opaque pair (One, Zero) it prefers sample shading (capability + MSAA + crisp
config), else alpha-to-coverage (MSAA + fuzzy config), else strict discard; for
every other pair it selects sample shading or strict — never alpha-to-coverage.
Without alpha cutout no discard test is selected. -/
theorem test_mode_selection_amended (hasMSAA hasSampleShading : Bool)
    (aa : Fin 3) (blendSrc blendDst : BlendingFactor) :
    (selectTestMode hasMSAA hasSampleShading aa.val blendSrc blendDst true).1 =
      amendedTestMode hasMSAA hasSampleShading aa.val blendSrc blendDst ∧
    (selectTestMode hasMSAA hasSampleShading aa.val blendSrc blendDst true).2 =
      (if blendSrc == .BlendOne && blendDst == .BlendOne then .BlendSrcAlpha else blendSrc) ∧
    selectTestMode hasMSAA hasSampleShading aa.val blendSrc blendDst false =
      (.TestNone, blendSrc) := by
  revert hasMSAA hasSampleShading aa blendSrc blendDst
  decide

theorem flushState_noop (r : GLRendererState) (h : r.glstate = r.state) :
    flushState r = (r, []) := by
  unfold flushState
  rw [if_pos h]

theorem flushState_applied_eq_desired (r : GLRendererState) :
    (flushState r).1.glstate = (flushState r).1.state := by
  unfold flushState
  split
  · next h => exact h
  · rfl

/-- C4: `flushState` is idempotent with respect to pipeline-state GPU calls:
after any flush the applied state equals the desired state, a second flush with
no intervening mutation issues no diff-derived state-changing GPU call, and
when applied and desired are already equal no call is issued at all. -/
theorem flushState_idempotent (r : GLRendererState) :
    (flushState r).1.glstate = (flushState r).1.state ∧
    (flushState (flushState r).1).2 = [] ∧
    (r.glstate = r.state → (flushState r).2 = []) :=
  ⟨flushState_applied_eq_desired r,
   by rw [flushState_noop (flushState r).1 (flushState_applied_eq_desired r)],
   fun h => by rw [flushState_noop r h]⟩

/-- Witness for C4 at a concrete renderer state whose desired and applied
states differ. -/
theorem flushState_idempotent_witness :
    (flushState flushWitnessState).1.glstate = (flushState flushWitnessState).1.state ∧
    (flushState (flushState flushWitnessState).1).2 = [] ∧
    (flushState flushWitnessNoopState).2 = [] :=
  ⟨(flushState_idempotent flushWitnessState).1,
   (flushState_idempotent flushWitnessState).2.1,
   (flushState_idempotent flushWitnessNoopState).2.2 rfl⟩

end ArxVerify
